import Mathlib

/-!
Verification development for the MediGuard backend (Python sources under
`backend/`).  Each Python function relevant to the specification is shallowly
embedded as an executable Lean definition; machine floats are modelled by `ℚ`,
fallible calls by `Except`/`Option`, and the random draws made by the code are
passed in as explicit parameters.
-/

namespace Medguard

/-! ## Thresholds (main.py lines 156-157 and alerts.py lines 5-6) -/

/-- `AUTO_ALERT_THRESHOLD = 0.8` in `main.py`. -/
def autoAlertThreshold : ℚ := 4/5

/-- `WARN_THRESHOLD = 0.5` in `main.py`. -/
def warnThreshold : ℚ := 1/2

/-- `AUTO_ALERT_THRESHOLD = 0.8` in `alerts.py`. -/
def alertsModAutoThreshold : ℚ := 4/5

/-- `WARN_THRESHOLD = 0.6` in `alerts.py` (note: differs from `main.py`). -/
def alertsModWarnThreshold : ℚ := 3/5

/-! ## Evaluator (`evaluate_and_handle_alert`, main.py lines 192-280)

The expiry-parsing prelude (main.py lines 203-228) turns the raw `expiry`
string into `days = int((ed_dt - now).days)` or leaves `days = None` when the
string is missing or unparseable; the embedding takes that outcome directly as
the `days : Option Int` field of the input. -/

/-- The `result` dict handed to `evaluate_and_handle_alert`.  `none` in a
field models an absent dictionary key (Python `dict.get` returning `None`). -/
structure EvalInput where
  days : Option Int
  fakeScore : Option ℚ
  predictedFake : Option Int
  manufacturer : Option String
  manufacturerName : Option String
  manufacturerPhone : Option String
deriving DecidableEq, Repr

/-- The alert dict built by `evaluate_and_handle_alert` (main.py lines
259-267).  The `data` field stores `json.dumps(result)`; we carry the
serialized event by its value, `json.dumps` being injective on these dicts. -/
structure AlertRec where
  id : String
  timestamp : ℚ
  level : String
  manufacturer : String
  manufacturerPhone : Option String
  message : String
  data : EvalInput
deriving DecidableEq, Repr

/-- Numeric rendering of the score inside alert reasons; the source formats
with `f"{score:.3f}"`, a display-only detail abstracted to `toString`. -/
def formatScore (q : ℚ) : String := toString q

/-- Rule table of `evaluate_and_handle_alert` (main.py lines 230-252): the
expiry rules fill `level` first, and the ML rules run only when `level` is
still `None`.  Returns the `(level, reason)` pair or `none`. -/
def evalRule (days : Option Int) (score : ℚ) (mlPred : Int) :
    Option (String × String) :=
  let expiryRule : Option (String × String) :=
    match days with
    | none => none
    | some d =>
      if d ≤ 90 then
        some ("CRITICAL", "Expiry within 3 months (days_to_expiry=" ++ toString d ++ ")")
      else if d ≤ 120 then
        some ("WARNING", "Expiry within 4 months (days_to_expiry=" ++ toString d ++ ")")
      else none
  match expiryRule with
  | some lr => some lr
  | none =>
    if mlPred = 1 ∨ score ≥ autoAlertThreshold then
      some ("CRITICAL", "ML anomaly (score=" ++ formatScore score ++ ")")
    else if score ≥ warnThreshold then
      some ("WARNING", "ML suspicious (score=" ++ formatScore score ++ ")")
    else none

/-- `result.get("manufacturer", result.get("manufacturer_name") or "Unknown")`
(main.py line 254). -/
def resolveManufacturer (inp : EvalInput) : String :=
  match inp.manufacturer with
  | some m => m
  | none =>
    match inp.manufacturerName with
    | some s => if s = "" then "Unknown" else s
    | none => "Unknown"

/-- `man_phone = result.get("manufacturer_phone"); if not man_phone:
man_phone = lookup_manufacturer_phone(manufacturer)` (main.py lines 255-257);
the catalog lookup result is the `phoneLookup` parameter. -/
def resolvePhone (inp : EvalInput) (phoneLookup : Option String) : Option String :=
  match inp.manufacturerPhone with
  | some p => if p = "" then phoneLookup else some p
  | none => phoneLookup

/-- `evaluate_and_handle_alert` (main.py lines 192-280) as a pure function of
the parsed input; `newId` models `uuid.uuid4()`, `now` models `time.time()`.
Returns the alert dict when a rule fires, else `none`. -/
def evaluateAndHandleAlert (inp : EvalInput) (newId : String) (now : ℚ)
    (phoneLookup : Option String) : Option AlertRec :=
  let score := inp.fakeScore.getD 0
  let mlPred := inp.predictedFake.getD 0
  match evalRule inp.days score mlPred with
  | none => none
  | some (lvl, reason) =>
    let man := resolveManufacturer inp
    some { id := newId, timestamp := now, level := lvl, manufacturer := man,
           manufacturerPhone := resolvePhone inp phoneLookup,
           message := lvl ++ ": " ++ reason ++ " | supplier=" ++ man,
           data := inp }

/-! ## Claim theorems C1 and C2 -/

/-- C1: for every event processed by the Evaluator, a known `daysToExpiry ≤ 90`
yields a CRITICAL alert whose reason mentions expiry within 3 months,
regardless of `fakeScore` and `predictedFake`; otherwise a known
`daysToExpiry ≤ 120` yields a WARNING alert (expiry rules take precedence
over the score rules). -/
theorem evaluator_expiry_rules_take_precedence
    (inp : EvalInput) (newId : String) (now : ℚ) (phoneLookup : Option String)
    (d : Int) (hd : inp.days = some d) :
    (d ≤ 90 →
      ∃ a, evaluateAndHandleAlert inp newId now phoneLookup = some a ∧
        a.level = "CRITICAL" ∧
        a.message = "CRITICAL: " ++
          ("Expiry within 3 months (days_to_expiry=" ++ toString d ++ ")") ++
          " | supplier=" ++ resolveManufacturer inp) ∧
    (90 < d → d ≤ 120 →
      ∃ a, evaluateAndHandleAlert inp newId now phoneLookup = some a ∧
        a.level = "WARNING" ∧
        a.message = "WARNING: " ++
          ("Expiry within 4 months (days_to_expiry=" ++ toString d ++ ")") ++
          " | supplier=" ++ resolveManufacturer inp) := by
  constructor
  · intro h90
    have hx : evaluateAndHandleAlert inp newId now phoneLookup = some
        { id := newId, timestamp := now, level := "CRITICAL",
          manufacturer := resolveManufacturer inp,
          manufacturerPhone := resolvePhone inp phoneLookup,
          message := "CRITICAL" ++ ": " ++
            ("Expiry within 3 months (days_to_expiry=" ++ toString d ++ ")") ++
            " | supplier=" ++ resolveManufacturer inp,
          data := inp } := by
      simp only [evaluateAndHandleAlert, evalRule, hd, if_pos h90]
    exact ⟨_, hx, rfl, rfl⟩
  · intro h90 h120
    have hx : evaluateAndHandleAlert inp newId now phoneLookup = some
        { id := newId, timestamp := now, level := "WARNING",
          manufacturer := resolveManufacturer inp,
          manufacturerPhone := resolvePhone inp phoneLookup,
          message := "WARNING" ++ ": " ++
            ("Expiry within 4 months (days_to_expiry=" ++ toString d ++ ")") ++
            " | supplier=" ++ resolveManufacturer inp,
          data := inp } := by
      simp only [evaluateAndHandleAlert, evalRule, hd,
        if_neg (by omega : ¬ d ≤ 90), if_pos h120]
    exact ⟨_, hx, rfl, rfl⟩

/-- Witness for `evaluator_expiry_rules_take_precedence` at
`days = 30, fakeScore = 0.1`. -/
theorem evaluator_expiry_rules_witness :
    ∃ a, evaluateAndHandleAlert
        { days := some 30, fakeScore := some (1/10), predictedFake := some 0,
          manufacturer := some "PharmaCorp", manufacturerName := none,
          manufacturerPhone := none } "id-1" 0 none = some a ∧
      a.level = "CRITICAL" ∧
      a.message = "CRITICAL: " ++
        ("Expiry within 3 months (days_to_expiry=" ++ toString (30 : Int) ++ ")") ++
        " | supplier=" ++ resolveManufacturer
          { days := some 30, fakeScore := some (1/10), predictedFake := some 0,
            manufacturer := some "PharmaCorp", manufacturerName := none,
            manufacturerPhone := none } :=
  (evaluator_expiry_rules_take_precedence
    { days := some 30, fakeScore := some (1/10), predictedFake := some 0,
      manufacturer := some "PharmaCorp", manufacturerName := none,
      manufacturerPhone := none } "id-1" 0 none 30 rfl).1 (by decide)

/-- The two `main.py` thresholds are ordered: `0.5 ≤ 0.8`. -/
theorem warnThreshold_le_auto : warnThreshold ≤ autoAlertThreshold := by
  unfold warnThreshold autoAlertThreshold
  norm_num

/-- C2: with unknown expiry (`days = None`), the Evaluator returns CRITICAL
iff `predictedFake` is set or `fakeScore ≥ 0.8`, WARNING iff
`0.5 ≤ fakeScore < 0.8` and `predictedFake` is not set, and no alert iff
`fakeScore < 0.5` and `predictedFake` is not set. -/
theorem evaluator_unknown_expiry_score_rules
    (inp : EvalInput) (newId : String) (now : ℚ) (phoneLookup : Option String)
    (hd : inp.days = none) :
    ((∃ a, evaluateAndHandleAlert inp newId now phoneLookup = some a ∧
        a.level = "CRITICAL") ↔
      (inp.predictedFake.getD 0 = 1 ∨ autoAlertThreshold ≤ inp.fakeScore.getD 0)) ∧
    ((∃ a, evaluateAndHandleAlert inp newId now phoneLookup = some a ∧
        a.level = "WARNING") ↔
      (¬ inp.predictedFake.getD 0 = 1 ∧ warnThreshold ≤ inp.fakeScore.getD 0 ∧
        inp.fakeScore.getD 0 < autoAlertThreshold)) ∧
    (evaluateAndHandleAlert inp newId now phoneLookup = none ↔
      (¬ inp.predictedFake.getD 0 = 1 ∧ inp.fakeScore.getD 0 < warnThreshold)) := by
  simp only [evaluateAndHandleAlert, evalRule, hd]
  by_cases hc : inp.predictedFake.getD 0 = 1 ∨ inp.fakeScore.getD 0 ≥ autoAlertThreshold
  · rw [if_pos hc]
    refine ⟨?_, ?_, ?_⟩
    · simp only [Option.some.injEq]
      constructor
      · intro _
        rcases hc with h | h
        · exact Or.inl h
        · exact Or.inr h
      · intro _
        exact ⟨_, rfl, rfl⟩
    · simp only [Option.some.injEq]
      constructor
      · rintro ⟨a, ha, hl⟩
        rw [← ha] at hl
        have hlit : "CRITICAL" = "WARNING" := hl
        exact absurd hlit (by decide)
      · rintro ⟨hnp, _, hlt⟩
        rcases hc with h | h
        · exact absurd h hnp
        · exact absurd h (not_le.mpr hlt)
    · constructor
      · intro h
        exact absurd h (by simp)
      · rintro ⟨hnp, hlt⟩
        rcases hc with h | h
        · exact absurd h hnp
        · exact absurd hlt (not_lt.mpr (le_trans warnThreshold_le_auto h))
  · rw [if_neg hc]
    push_neg at hc
    obtain ⟨hnp, hlt⟩ := hc
    by_cases hw : inp.fakeScore.getD 0 ≥ warnThreshold
    · rw [if_pos hw]
      refine ⟨?_, ?_, ?_⟩
      · simp only [Option.some.injEq]
        constructor
        · rintro ⟨a, ha, hl⟩
          rw [← ha] at hl
          have hlit : "WARNING" = "CRITICAL" := hl
          exact absurd hlit (by decide)
        · rintro (h | h)
          · exact absurd h hnp
          · exact absurd h (not_le.mpr hlt)
      · simp only [Option.some.injEq]
        exact ⟨fun _ => ⟨hnp, hw, hlt⟩, fun _ => ⟨_, rfl, rfl⟩⟩
      · constructor
        · intro h
          exact absurd h (by simp)
        · rintro ⟨_, h⟩
          exact absurd hw (not_le.mpr h)
    · rw [if_neg hw]
      push_neg at hw
      refine ⟨?_, ?_, ?_⟩
      · constructor
        · rintro ⟨a, ha, _⟩
          exact Option.noConfusion ha
        · rintro (h | h)
          · exact absurd h hnp
          · exact absurd h (not_le.mpr hlt)
      · constructor
        · rintro ⟨a, ha, _⟩
          exact Option.noConfusion ha
        · rintro ⟨_, h, _⟩
          exact absurd h (not_le.mpr hw)
      · exact ⟨fun _ => ⟨hnp, hw⟩, fun _ => rfl⟩

/-- Witness for `evaluator_unknown_expiry_score_rules` at
`fakeScore = 0.9`, unknown expiry. -/
theorem evaluator_unknown_expiry_witness :
    ((∃ a, evaluateAndHandleAlert
        { days := none, fakeScore := some (9/10), predictedFake := some 0,
          manufacturer := some "HealthMeds", manufacturerName := none,
          manufacturerPhone := none } "id-2" 0 none = some a ∧
        a.level = "CRITICAL") ↔
      ((Option.some (0 : Int)).getD 0 = 1 ∨
        autoAlertThreshold ≤ (Option.some ((9:ℚ)/10)).getD 0)) ∧
    ((∃ a, evaluateAndHandleAlert
        { days := none, fakeScore := some (9/10), predictedFake := some 0,
          manufacturer := some "HealthMeds", manufacturerName := none,
          manufacturerPhone := none } "id-2" 0 none = some a ∧
        a.level = "WARNING") ↔
      (¬ (Option.some (0 : Int)).getD 0 = 1 ∧
        warnThreshold ≤ (Option.some ((9:ℚ)/10)).getD 0 ∧
        (Option.some ((9:ℚ)/10)).getD 0 < autoAlertThreshold)) ∧
    (evaluateAndHandleAlert
        { days := none, fakeScore := some (9/10), predictedFake := some 0,
          manufacturer := some "HealthMeds", manufacturerName := none,
          manufacturerPhone := none } "id-2" 0 none = none ↔
      (¬ (Option.some (0 : Int)).getD 0 = 1 ∧
        (Option.some ((9:ℚ)/10)).getD 0 < warnThreshold)) :=
  evaluator_unknown_expiry_score_rules
    { days := none, fakeScore := some (9/10), predictedFake := some 0,
      manufacturer := some "HealthMeds", manufacturerName := none,
      manufacturerPhone := none } "id-2" 0 none rfl

/-! ## Scorer (`heuristic_fake_score`, main.py lines 159-171, and
`Simulator._ml_score`, simulator.py lines 90-131) -/

/-- Round to the nearest integer, ties to even (the rounding rule of
Python's built-in `round`). -/
def roundHalfEven (x : ℚ) : ℤ :=
  let f : ℤ := Int.floor x
  if x - (f : ℚ) < 1/2 then f
  else if 1/2 < x - (f : ℚ) then f + 1
  else if f % 2 = 0 then f else f + 1

/-- Python's `round(q, n)`: round to `n` decimal digits, ties to even. -/
def pyRound (q : ℚ) (n : ℕ) : ℚ :=
  (roundHalfEven (q * 10 ^ n) : ℚ) / 10 ^ n

/-- `heuristic_fake_score(days_to_expiry)` (main.py lines 159-171).  The two
`random.uniform` draws are the explicit parameters `rNone ∈ [0, 0.25]`
(missing-expiry branch) and `rFar ∈ [0, 0.35]` (far-future branch). -/
def heuristicFakeScore (daysToExpiry : Option Int) (rNone rFar : ℚ) : ℚ :=
  match daysToExpiry with
  | none => pyRound rNone 3
  | some d =>
    if d ≤ 0 then 19/20
    else if d ≤ 90 then 17/20
    else if d ≤ 120 then 3/5
    else pyRound rFar 3

/-- The per-tick score computation shared verbatim by the stream task
(main.py lines 313-318) and the `/predict` endpoint (main.py lines 383-385):
`fake_score = heuristic_fake_score(d)` and
`predicted_fake = 1 if fake_score >= AUTO_ALERT_THRESHOLD else 0`. -/
def scoreAndPredict (daysToExpiry : Option Int) (rNone rFar : ℚ) : ℚ × Int :=
  let fakeScore := heuristicFakeScore daysToExpiry rNone rFar
  (fakeScore, if fakeScore ≥ autoAlertThreshold then 1 else 0)

/-- `np.clip(x, 0.0, 1.0)` (simulator.py lines 110, 131). -/
def clip01 (q : ℚ) : ℚ := max 0 (min 1 q)

/-- `np.clip(x, 0.0, 5.0)` (simulator.py line 170). -/
def clip05 (q : ℚ) : ℚ := max 0 (min 5 q)

/-- `manufacturer in (None, "", "Unknown", "nan")` (simulator.py line 128). -/
def manufacturerUnknown : Option String → Bool
  | none => true
  | some s => s = "" || s = "Unknown" || s = "nan"

/-- `Simulator._ml_score(expiry, manufacturer)` (simulator.py lines 90-131).
`modelOutput` is the value returned by the model-bundle branch (lines
91-117) when a bundle is loaded and its invocation succeeds, already mapped
to `[0,1]`; `none` means no bundle or a failed invocation, which falls
through to the heuristic (lines 119-131).  `days` is
`(pd.to_datetime(expiry) - self.today).days`, `none` standing for a parse
failure (code substitutes the sentinel 36500).  `expTerm` carries the
transcendental `np.exp(max(-3.0, days / 365.0))` opaquely and `noise` the
`np.random.normal(0, 0.05)` draw. -/
def mlScore (modelOutput : Option ℚ) (days : Option Int)
    (manufacturer : Option String) (expTerm noise : ℚ) : ℚ :=
  match modelOutput with
  | some s => s
  | none =>
    let d : Int := days.getD 36500
    let s1 : ℚ := if d < 0 then (1/2) * (1 - expTerm) else 0
    let s2 : ℚ := s1 + (if manufacturerUnknown manufacturer then 3/10 else 0)
    clip01 (s2 + noise)

/-! ## Event generator (`Simulator.simulate_hardware_test`, simulator.py
lines 133-188) -/

/-- A catalog row as consumed by `simulate_hardware_test`: the manufacturer
string and the expiry represented by its signed day offset from the fixed
baseline `self.today` (`none` = missing/unparseable expiry). -/
structure Sample where
  manufacturer : Option String
  expiryDays : Option Int
deriving DecidableEq, Repr

/-- The random draws consumed by one `simulate_hardware_test` call, plus the
score-path parameters threaded to `_ml_score`.  `failDraw` and `flipDraw`
are the two `self._rng.random()` draws (lines 145 and 175); `sensorNoises`
are the per-channel `np.random.normal(0.0, noise_level)` draws, the list
length playing the role of `self.sensor_channels`. -/
structure SimDraws where
  failDraw : ℚ
  modelOutput : Option ℚ
  expTerm : ℚ
  scoreNoise : ℚ
  sensorNoises : List ℚ
  flipDraw : ℚ
deriving DecidableEq, Repr

/-- The successful (`status == "OK"`) result dict (simulator.py lines
178-188); the simulated latency `duration` and the wall-clock timestamp are
omitted as pure bookkeeping. -/
structure OkResult where
  manufacturer : Option String
  fakeScore : ℚ
  predictedFake : Int
  testResult : String
  rawSensor : List ℚ
deriving DecidableEq, Repr

/-- Result of one simulated hardware test: the `status == "ERROR"` dict
(lines 146-151) or the OK dict. -/
inductive SimResult where
  | err (msg : String)
  | ok (r : OkResult)
deriving DecidableEq, Repr

/-- `raw_sensor` production (simulator.py lines 164-170): channel `ch` gets
`clip(base_signal * (1 + 0.02*(ch - (n-1)/2)) * (1 + noise), 0, 5)`. -/
def sensorSignals (baseSignal : ℚ) (noises : List ℚ) : List ℚ :=
  ((List.range noises.length).zip noises).map fun p =>
    let drift : ℚ := 1 + (1/50) * ((p.1 : ℚ) - ((noises.length : ℚ) - 1) / 2)
    clip05 (baseSignal * drift * (1 + p.2))

/-- `Simulator.simulate_hardware_test` (simulator.py lines 133-188) with the
default `simulate_failure_rate = 0.01`.  Note the `predicted_fake` threshold
here is the local `threshold = 0.7` (line 172), and the reported
`fake_score` is rounded to 4 digits while `predicted_fake` is computed from
the unrounded score. -/
def simulateHardwareTest (sample : Sample) (d : SimDraws) : SimResult :=
  if d.failDraw < 1/100 then
    .err "Hardware timeout or sensor disconnect"
  else
    let fakeScore :=
      mlScore d.modelOutput sample.expiryDays sample.manufacturer d.expTerm d.scoreNoise
    let baseSignal := max (1/20) (1 - fakeScore)
    let rawSensor := sensorSignals baseSignal d.sensorNoises
    let predictedFake : Int := if fakeScore ≥ 7/10 then 1 else 0
    let testResult0 := if predictedFake = 1 then "FAIL" else "PASS"
    let testResult :=
      if d.flipDraw < 1/100 then
        (if testResult0 = "FAIL" then "PASS" else "FAIL")
      else testResult0
    .ok { manufacturer := sample.manufacturer,
          fakeScore := pyRound fakeScore 4,
          predictedFake := predictedFake,
          testResult := testResult,
          rawSensor := rawSensor }

/-- The `fake_score` field of an OK result, `none` on ERROR. -/
def SimResult.fakeScoreOf : SimResult → Option ℚ
  | .err _ => none
  | .ok r => some r.fakeScore

/-- The `predicted_fake` field of an OK result, `none` on ERROR. -/
def SimResult.predictedFakeOf : SimResult → Option Int
  | .err _ => none
  | .ok r => some r.predictedFake

/-- The `test_result` field of an OK result, `none` on ERROR. -/
def SimResult.testResultOf : SimResult → Option String
  | .err _ => none
  | .ok r => some r.testResult

/-- Rounding half-to-even never goes below a lower integer bound. -/
theorem roundHalfEven_nonneg (x : ℚ) (h : 0 ≤ x) : 0 ≤ roundHalfEven x := by
  unfold roundHalfEven
  have hf : (0 : ℤ) ≤ Int.floor x := Int.floor_nonneg.mpr h
  dsimp only
  split
  · exact hf
  · split
    · omega
    · split
      · exact hf
      · omega

/-- Rounding half-to-even never exceeds an integer upper bound. -/
theorem roundHalfEven_le (x : ℚ) (m : ℤ) (h : x ≤ (m : ℚ)) :
    roundHalfEven x ≤ m := by
  unfold roundHalfEven
  have hf : Int.floor x ≤ m := by
    have := Int.floor_le_floor (α := ℚ) h
    simpa using this
  have hfx : (Int.floor x : ℚ) ≤ x := Int.floor_le x
  dsimp only
  split
  · exact hf
  next hlt =>
    have hge : 1/2 ≤ x - (Int.floor x : ℚ) := le_of_not_lt hlt
    have hne : Int.floor x ≠ m := by
      intro he
      rw [he] at hge
      have : (m : ℚ) + 1/2 ≤ x := by linarith
      linarith
    have hstep : Int.floor x + 1 ≤ m := by omega
    split
    · exact hstep
    · split
      · omega
      · exact hstep

/-- `pyRound · 3` stays within `[0, k/1000]` when its input does. -/
theorem pyRound3_bounds (q : ℚ) (k : ℤ) (h0 : 0 ≤ q) (hk : q ≤ (k : ℚ)/1000) :
    0 ≤ pyRound q 3 ∧ pyRound q 3 ≤ (k : ℚ)/1000 := by
  unfold pyRound
  have hp : ((10 : ℚ) ^ (3 : ℕ)) = 1000 := by norm_num
  rw [hp]
  have hx0 : 0 ≤ q * 1000 := by positivity
  have hxk : q * 1000 ≤ (k : ℚ) := by
    have := mul_le_mul_of_nonneg_right hk (by norm_num : (0:ℚ) ≤ 1000)
    calc q * 1000 ≤ (k : ℚ)/1000 * 1000 := this
      _ = (k : ℚ) := by ring
  have h1 := roundHalfEven_nonneg (q * 1000) hx0
  have h2 := roundHalfEven_le (q * 1000) k hxk
  constructor
  · positivity
  · rw [div_le_div_iff₀ (by norm_num) (by norm_num)]
    calc (roundHalfEven (q * 1000) : ℚ) * 1000 ≤ (k : ℚ) * 1000 := by
          have : (roundHalfEven (q * 1000) : ℚ) ≤ (k : ℚ) := by exact_mod_cast h2
          nlinarith
      _ = (k : ℚ) * 1000 := rfl

/-! ## Claim theorems C6 (Scorer heuristic fallback) -/

/-- C6 counterexample: the simulator's own heuristic fallback
(`_ml_score` with no model bundle, simulator.py lines 119-131) does not
return the claimed table values.  At `daysToExpiry = 30` (known, in
`(0, 90]`), known manufacturer, and zero noise it returns `0`, not the
claimed `0.85`. -/
theorem simulator_fallback_not_claimed_table :
    mlScore none (some 30) (some "PharmaCorp") 0 0 = 0 ∧
    ((0 : ℚ) = 17/20 → False) := by
  constructor
  · have hman : manufacturerUnknown (some "PharmaCorp") = false := by decide
    simp only [mlScore, clip01, Option.getD, hman]
    norm_num
  · intro h
    norm_num at h

/-- C6 (amended): the `main.py` heuristic scorer `heuristic_fake_score`
returns exactly `0.95` for `daysToExpiry ≤ 0`, `0.85` for `(0, 90]`, `0.6`
for `(90, 120]`, a rounded random value in `[0, 0.25]` when expiry is
missing, and a rounded random value in `[0, 0.35]` otherwise; the
simulator's internal `_ml_score` fallback instead uses its own formula
(see `mlScore`). -/
theorem heuristic_fake_score_table (d : Int) (rNone rFar : ℚ)
    (hrn0 : 0 ≤ rNone) (hrn1 : rNone ≤ 1/4) (hrf0 : 0 ≤ rFar) (hrf1 : rFar ≤ 7/20) :
    (heuristicFakeScore none rNone rFar = pyRound rNone 3 ∧
      0 ≤ heuristicFakeScore none rNone rFar ∧
      heuristicFakeScore none rNone rFar ≤ 1/4) ∧
    (d ≤ 0 → heuristicFakeScore (some d) rNone rFar = 19/20) ∧
    (0 < d → d ≤ 90 → heuristicFakeScore (some d) rNone rFar = 17/20) ∧
    (90 < d → d ≤ 120 → heuristicFakeScore (some d) rNone rFar = 3/5) ∧
    (120 < d → (heuristicFakeScore (some d) rNone rFar = pyRound rFar 3 ∧
      0 ≤ heuristicFakeScore (some d) rNone rFar ∧
      heuristicFakeScore (some d) rNone rFar ≤ 7/20)) := by
  have hb1 := pyRound3_bounds rNone 250 hrn0 (by linarith)
  have hb2 := pyRound3_bounds rFar 350 hrf0 (by linarith)
  have h250 : ((250 : ℤ) : ℚ)/1000 = 1/4 := by norm_num
  have h350 : ((350 : ℤ) : ℚ)/1000 = 7/20 := by norm_num
  rw [h250] at hb1
  rw [h350] at hb2
  refine ⟨⟨rfl, hb1.1, hb1.2⟩, ?_, ?_, ?_, ?_⟩
  · intro h
    simp only [heuristicFakeScore, if_pos h]
  · intro h0 h90
    simp only [heuristicFakeScore, if_neg (by omega : ¬ d ≤ 0), if_pos h90]
  · intro h90 h120
    simp only [heuristicFakeScore, if_neg (by omega : ¬ d ≤ 0),
      if_neg (by omega : ¬ d ≤ 90), if_pos h120]
  · intro h120
    have he : heuristicFakeScore (some d) rNone rFar = pyRound rFar 3 := by
      simp only [heuristicFakeScore, if_neg (by omega : ¬ d ≤ 0),
        if_neg (by omega : ¬ d ≤ 90), if_neg (by omega : ¬ d ≤ 120)]
    exact ⟨he, he ▸ hb2.1, he ▸ hb2.2⟩

/-- Witness for `heuristic_fake_score_table` at `d = 30`,
`rNone = 1/8`, `rFar = 1/5`. -/
theorem heuristic_fake_score_table_witness :
    heuristicFakeScore (some 30) (1/8) (1/5) = 17/20 :=
  ((heuristic_fake_score_table 30 (1/8) (1/5) (by norm_num) (by norm_num)
    (by norm_num) (by norm_num)).2.2.1 (by norm_num) (by norm_num))

/-- `pyRound` is the identity on values already exact at `n` digits. -/
theorem pyRound_eq_self (q : ℚ) (n : ℕ) (k : ℤ) (h : q * 10 ^ n = (k : ℚ)) :
    pyRound q n = q := by
  unfold pyRound roundHalfEven
  rw [h, Int.floor_intCast]
  simp only [sub_self]
  rw [if_pos (by norm_num : (0 : ℚ) < 1/2)]
  have h10 : ((10 : ℚ) ^ n) ≠ 0 := by positivity
  rw [div_eq_iff h10]
  exact h.symm

/-! ## Claim theorems C3 (predictedFake thresholds) -/

/-- The concrete catalog row of the C3 counterexample: unknown-named
manufacturer, expiry 10 days past the baseline. -/
def c3Sample : Sample := { manufacturer := some "Unknown", expiryDays := some 10 }

/-- The concrete draws of the C3 counterexample: no model bundle, gaussian
score noise `0.45`, no simulated failure, no test-result flip. -/
def c3Draws : SimDraws :=
  { failDraw := 1, modelOutput := none, expTerm := 0, scoreNoise := 9/20,
    sensorNoises := [0, 0, 0], flipDraw := 1 }

/-- The heuristic score reached in the C3 counterexample:
`clip(0 + 0.3 + 0.45) = 0.75`. -/
theorem c3_mlScore_eq : mlScore none (some 10) (some "Unknown") 0 (9/20) = 3/4 := by
  have hman : manufacturerUnknown (some "Unknown") = true := by decide
  simp only [mlScore, Option.getD, hman, if_true]
  rw [if_neg (by decide : ¬ ((10 : ℤ) < 0))]
  unfold clip01
  rw [show (0 : ℚ) + 3/10 + 9/20 = 3/4 by norm_num,
    min_eq_right (by norm_num : (3:ℚ)/4 ≤ 1),
    max_eq_right (by norm_num : (0:ℚ) ≤ 3/4)]

/-- C3 counterexample: in the simulator's hardware-test path the
`predicted_fake` threshold is `0.7` (simulator.py line 172), not `0.8`:
the concrete event scored `0.75` has `predicted_fake = 1` although
`0.75 < AUTO_ALERT_THRESHOLD = 0.8`. -/
theorem simulator_predicted_fake_below_0_8 :
    (simulateHardwareTest c3Sample c3Draws).predictedFakeOf = some 1 ∧
    (simulateHardwareTest c3Sample c3Draws).fakeScoreOf = some (3/4) ∧
    ¬ (autoAlertThreshold ≤ (3 : ℚ)/4) := by
  have hrun : simulateHardwareTest c3Sample c3Draws =
      SimResult.ok
        { manufacturer := some "Unknown", fakeScore := pyRound (3/4) 4,
          predictedFake := 1, testResult := "FAIL",
          rawSensor := sensorSignals (max (1/20) (1 - 3/4)) [0, 0, 0] } := by
    unfold simulateHardwareTest
    rw [if_neg (by norm_num [c3Draws] : ¬ (c3Draws.failDraw < 1/100))]
    simp only [c3Sample, c3Draws, c3_mlScore_eq]
    rw [if_pos (by norm_num : (3:ℚ)/4 ≥ 7/10)]
    rw [if_pos (rfl : (1:ℤ) = 1)]
    rw [if_neg (by norm_num : ¬ ((1:ℚ) < 1/100))]
  rw [hrun]
  refine ⟨rfl, ?_, by norm_num [autoAlertThreshold]⟩
  simp only [SimResult.fakeScoreOf]
  rw [pyRound_eq_self (3/4) 4 7500 (by norm_num)]

/-- C3 (amended): in the stream task and the `/predict` endpoint
`predictedFake = 1` exactly when `fakeScore ≥ 0.8`
(`AUTO_ALERT_THRESHOLD`); in the simulator's hardware-test path
`predicted_fake = 1` exactly when the unrounded score is `≥ 0.7` (the
local `threshold`). -/
theorem predicted_fake_threshold_by_path
    (daysToExpiry : Option Int) (rNone rFar : ℚ)
    (sample : Sample) (draws : SimDraws) (out : OkResult)
    (hok : simulateHardwareTest sample draws = SimResult.ok out) :
    ((scoreAndPredict daysToExpiry rNone rFar).2 = 1 ↔
      autoAlertThreshold ≤ (scoreAndPredict daysToExpiry rNone rFar).1) ∧
    (out.predictedFake = 1 ↔
      (7 : ℚ)/10 ≤ mlScore draws.modelOutput sample.expiryDays
        sample.manufacturer draws.expTerm draws.scoreNoise) := by
  constructor
  · unfold scoreAndPredict
    dsimp only
    by_cases h : heuristicFakeScore daysToExpiry rNone rFar ≥ autoAlertThreshold
    · rw [if_pos h]
      exact iff_of_true rfl h
    · rw [if_neg h]
      exact iff_of_false (by decide) h
  · unfold simulateHardwareTest at hok
    by_cases hf : draws.failDraw < 1/100
    · rw [if_pos hf] at hok
      exact absurd hok (by simp)
    · rw [if_neg hf] at hok
      simp only [SimResult.ok.injEq] at hok
      rw [← hok]
      dsimp only
      by_cases h : mlScore draws.modelOutput sample.expiryDays
          sample.manufacturer draws.expTerm draws.scoreNoise ≥ 7/10
      · rw [if_pos h]
        exact iff_of_true rfl h
      · rw [if_neg h]
        exact iff_of_false (by decide) h

/-- Witness for `predicted_fake_threshold_by_path` at the concrete
counterexample event. -/
theorem predicted_fake_threshold_witness :
    ((scoreAndPredict (some 30) 0 0).2 = 1 ↔
      autoAlertThreshold ≤ (scoreAndPredict (some 30) 0 0).1) ∧
    (({ manufacturer := some "Unknown", fakeScore := pyRound (3/4) 4,
        predictedFake := 1, testResult := "FAIL",
        rawSensor := sensorSignals (max (1/20) (1 - 3/4)) [0, 0, 0] } :
          OkResult).predictedFake = 1 ↔
      (7 : ℚ)/10 ≤ mlScore c3Draws.modelOutput c3Sample.expiryDays
        c3Sample.manufacturer c3Draws.expTerm c3Draws.scoreNoise) :=
  predicted_fake_threshold_by_path (some 30) 0 0 c3Sample c3Draws
    { manufacturer := some "Unknown", fakeScore := pyRound (3/4) 4,
      predictedFake := 1, testResult := "FAIL",
      rawSensor := sensorSignals (max (1/20) (1 - 3/4)) [0, 0, 0] }
    (by
      unfold simulateHardwareTest
      rw [if_neg (by norm_num [c3Draws] : ¬ (c3Draws.failDraw < 1/100))]
      simp only [c3Sample, c3Draws, c3_mlScore_eq]
      rw [if_pos (by norm_num : (3:ℚ)/4 ≥ 7/10)]
      rw [if_pos (rfl : (1:ℤ) = 1)]
      rw [if_neg (by norm_num : ¬ ((1:ℚ) < 1/100))])

/-! ## Claim theorem C10 (the PASS/FAIL flip is frame-preserving) -/

/-- C10: for every OK-status generated event, the ~1% `test_result` flip
(simulator.py lines 175-176) leaves every other field of the result —
`fake_score`, `predicted_fake`, `manufacturer`, `raw_sensor` — unchanged:
two runs of `simulate_hardware_test` that differ only in the flip draw
produce OK results agreeing on all of them (`predicted_fake` is computed
from `fake_score` before the flip). -/
theorem flip_changes_only_test_result (sample : Sample) (d : SimDraws)
    (f f' : ℚ) (hok : ¬ (d.failDraw < 1/100)) :
    ∃ out1 out2,
      simulateHardwareTest sample { d with flipDraw := f } = SimResult.ok out1 ∧
      simulateHardwareTest sample { d with flipDraw := f' } = SimResult.ok out2 ∧
      out1.fakeScore = out2.fakeScore ∧
      out1.predictedFake = out2.predictedFake ∧
      out1.manufacturer = out2.manufacturer ∧
      out1.rawSensor = out2.rawSensor := by
  unfold simulateHardwareTest
  dsimp only
  rw [if_neg hok, if_neg hok]
  exact ⟨_, _, rfl, rfl, rfl, rfl, rfl, rfl⟩

/-- Witness for `flip_changes_only_test_result`: the same event with the
flip firing (`flipDraw = 0`) and not firing (`flipDraw = 1`). -/
theorem flip_changes_only_test_result_witness :
    ∃ out1 out2,
      simulateHardwareTest { manufacturer := some "MediCare", expiryDays := none }
        { failDraw := 1/2, modelOutput := none, expTerm := 0, scoreNoise := 0,
          sensorNoises := [0, 0, 0], flipDraw := 0 } = SimResult.ok out1 ∧
      simulateHardwareTest { manufacturer := some "MediCare", expiryDays := none }
        { failDraw := 1/2, modelOutput := none, expTerm := 0, scoreNoise := 0,
          sensorNoises := [0, 0, 0], flipDraw := 1 } = SimResult.ok out2 ∧
      out1.fakeScore = out2.fakeScore ∧
      out1.predictedFake = out2.predictedFake ∧
      out1.manufacturer = out2.manufacturer ∧
      out1.rawSensor = out2.rawSensor :=
  flip_changes_only_test_result
    { manufacturer := some "MediCare", expiryDays := none }
    { failDraw := 1/2, modelOutput := none, expTerm := 0, scoreNoise := 0,
      sensorNoises := [0, 0, 0], flipDraw := 37 }
    0 1 (by norm_num)

/-! ## Stream worker (`Simulator.stream_tests` runner, simulator.py lines
190-247) and stream task (`_stream_simulator_task`, main.py lines 283-338) -/

/-- One run's configuration and environment for the `runner` closure of
`stream_tests`.  `gen i` is the `i`-th value pulled from the sample
generator (`none` = the generator is exhausted, as happens for a finite
explicit selector list); `draws i` are the random draws consumed by the
`i`-th `simulate_hardware_test` call; `stopTop i` / `stopSleep i` is the
value of the shared `stop_flag["stop"]` as observed at the loop-top check /
the post-sleep check of iteration `i`; `maxTests` is the `max_tests`
argument. -/
structure RunnerCfg where
  gen : Nat → Option Sample
  draws : Nat → SimDraws
  maxTests : Option Nat
  stopTop : Nat → Bool
  stopSleep : Nat → Bool

/-- An emitted `test_result` message: the dict returned by
`simulate_hardware_test` augmented with `res["seq"] = count`
(simulator.py lines 216-218); the constant `stream_id` is left implicit. -/
structure StreamEvent where
  seq : Nat
  result : SimResult
deriving DecidableEq, Repr

/-- Why the runner loop exited. -/
inductive EndReason where
  | exhausted
  | stopped
  | maxReached
deriving DecidableEq, Repr

/-- `count >= int(max_tests)` guarded by `max_tests is not None`
(simulator.py line 224). -/
def maxReachedAfter (maxTests : Option Nat) (count : Nat) : Bool :=
  match maxTests with
  | some m => count ≥ m
  | none => false

/-- The `runner` loop of `stream_tests` (simulator.py lines 201-233),
unrolled from iteration `i` with `fuel` remaining iterations: pull a sample
(exhaustion ends the loop), check the stop flag, emit the event with
`seq = count`, check `max_tests`, sleep in 0.1 s quanta re-checking the
stop flag.  Returns the list of events emitted from iteration `i` on and
the reason the loop ended, or `none` if `fuel` iterations were not enough
to finish. -/
def runnerLoop (cfg : RunnerCfg) : Nat → Nat → Option (List StreamEvent × EndReason)
  | 0, _ => none
  | fuel + 1, i =>
    match cfg.gen i with
    | none => some ([], .exhausted)
    | some s =>
      if cfg.stopTop i then some ([], .stopped)
      else
        let ev : StreamEvent := { seq := i, result := simulateHardwareTest s (cfg.draws i) }
        if maxReachedAfter cfg.maxTests (i + 1) then some ([ev], .maxReached)
        else if cfg.stopSleep i then some ([ev], .stopped)
        else
          match runnerLoop cfg fuel (i + 1) with
          | none => none
          | some (evs, r) => some (ev :: evs, r)

/-- The runner loop terminates (some finite fuel completes it). -/
def runnerTerminates (cfg : RunnerCfg) : Prop :=
  ∃ fuel out, runnerLoop cfg fuel 0 = some out

/-- The `while time.time() - start < run_seconds` loop of
`_stream_simulator_task` (main.py lines 291-338): `clock i` is the
`time.time()` reading at the `i`-th loop-top check.  Returns the number of
iterations executed, or `none` if `fuel` checks were not enough. -/
def streamTaskLoop (clock : Nat → ℚ) (start runSeconds : ℚ) :
    Nat → Nat → Option Nat
  | 0, _ => none
  | fuel + 1, i =>
    if clock i - start < runSeconds then streamTaskLoop clock start runSeconds fuel (i + 1)
    else some i

/-- The runner finishes within `fuel` iterations from iteration `i`
whenever `max_tests = m` and `m ≤ i + fuel`. -/
theorem runnerLoop_maxTests_isSome (cfg : RunnerCfg) (m : Nat)
    (hm : cfg.maxTests = some m) :
    ∀ fuel i, m ≤ i + fuel → (runnerLoop cfg (fuel + 1) i).isSome := by
  intro fuel
  induction fuel with
  | zero =>
    intro i hi
    unfold runnerLoop
    match hg : cfg.gen i with
    | none => simp
    | some s =>
      simp only
      split
      · simp
      · rw [if_pos]
        · simp
        · simp only [maxReachedAfter, hm, decide_eq_true_eq]
          omega
  | succ fuel ih =>
    intro i hi
    unfold runnerLoop
    match hg : cfg.gen i with
    | none => simp
    | some s =>
      simp only
      split
      · simp
      · by_cases hmax : maxReachedAfter cfg.maxTests (i + 1) = true
        · rw [if_pos hmax]
          simp
        · rw [if_neg hmax]
          split
          · simp
          · have hrec : (runnerLoop cfg (fuel + 1) (i + 1)).isSome := by
              apply ih
              omega
            match hr : runnerLoop cfg (fuel + 1) (i + 1) with
            | none => rw [hr] at hrec; simp at hrec
            | some (evs, r) => simp

/-- The runner finishes within `fuel` iterations from iteration `i`
whenever the stop flag is (and stays) set from some loop-top check `k` on
and `k ≤ i + fuel`. -/
theorem runnerLoop_stop_isSome (cfg : RunnerCfg) (k : Nat)
    (hk : ∀ j, k ≤ j → cfg.stopTop j = true) :
    ∀ fuel i, k ≤ i + fuel → (runnerLoop cfg (fuel + 1) i).isSome := by
  intro fuel
  induction fuel with
  | zero =>
    intro i hi
    unfold runnerLoop
    match hg : cfg.gen i with
    | none => simp
    | some s =>
      simp only
      rw [if_pos (hk i (by omega))]
      simp
  | succ fuel ih =>
    intro i hi
    unfold runnerLoop
    match hg : cfg.gen i with
    | none => simp
    | some s =>
      simp only
      split
      · simp
      · split
        · simp
        · split
          · simp
          · have hrec : (runnerLoop cfg (fuel + 1) (i + 1)).isSome := by
              apply ih
              omega
            match hr : runnerLoop cfg (fuel + 1) (i + 1) with
            | none => rw [hr] at hrec; simp at hrec
            | some (evs, r) => simp

/-- The stream task loop finishes within `fuel` checks from check `i`
whenever the clock is monotone and reaches `start + runSeconds` by check
`n ≤ i + fuel`. -/
theorem streamTaskLoop_isSome (clock : Nat → ℚ) (start runSeconds : ℚ)
    (n : Nat) (hmono : ∀ j j', j ≤ j' → clock j ≤ clock j')
    (hn : start + runSeconds ≤ clock n) :
    ∀ fuel i, n ≤ i + fuel → (streamTaskLoop clock start runSeconds (fuel + 1) i).isSome := by
  intro fuel
  induction fuel with
  | zero =>
    intro i hi
    unfold streamTaskLoop
    rw [if_neg]
    · simp
    · have : clock n ≤ clock i := hmono n i (by omega)
      push_neg
      linarith
  | succ fuel ih =>
    intro i hi
    unfold streamTaskLoop
    split
    · apply ih
      omega
    · simp

/-- Draws reused by the concrete runner configurations below: no model, no
noise, no simulated failure, no flip. -/
def wDraws : SimDraws :=
  { failDraw := 1, modelOutput := none, expTerm := 0, scoreNoise := 0,
    sensorNoises := [0, 0, 0], flipDraw := 1 }

/-- Sample reused by the concrete runner configurations below. -/
def wSample : Sample := { manufacturer := some "GlobalPharma", expiryDays := some 200 }

/-- A run whose selector yields samples forever, with `max_tests = 2` and a
stop flag that is never set. -/
def wCfgMax : RunnerCfg :=
  { gen := fun _ => some wSample, draws := fun _ => wDraws,
    maxTests := some 2, stopTop := fun _ => false, stopSleep := fun _ => false }

/-- A run whose stop flag is observed set from the very first loop-top
check on, with no `max_tests`. -/
def wCfgStop : RunnerCfg :=
  { gen := fun _ => some wSample, draws := fun _ => wDraws,
    maxTests := none, stopTop := fun _ => true, stopSleep := fun _ => true }

/-- A run over an exhausted selector (e.g. an explicit empty index list):
no `max_tests`, stop flag never set. -/
def emptySelectorCfg : RunnerCfg :=
  { gen := fun _ => none, draws := fun _ => wDraws,
    maxTests := none, stopTop := fun _ => false, stopSleep := fun _ => false }

/-! ## Claim theorems C4 (loop termination) -/

/-- C4 counterexample: a stream started over an exhausted sample selector
(`sample_selector` an empty index list makes `gen` yield nothing,
simulator.py lines 205-206) terminates at once with reason "generator
exhausted", although no duration bound exists in `stream_tests`, no
`max_tests` was given, and the stop flag was never set — termination is
not "exactly when" one of the three claimed conditions occurs. -/
theorem runner_terminates_on_exhausted_selector :
    runnerLoop emptySelectorCfg 1 0 = some ([], EndReason.exhausted) ∧
    emptySelectorCfg.maxTests = none ∧
    emptySelectorCfg.stopTop 0 = false ∧
    emptySelectorCfg.stopSleep 0 = false :=
  ⟨rfl, rfl, rfl, rfl⟩

/-- C4 (amended): the worker loop of `stream_tests` terminates when
`max_tests` is reached, when cancellation is observed, or when the sample
selector is exhausted; the `_stream_simulator_task` loop terminates when
the elapsed time reaches the requested duration.  In particular, given a
`max_tests` bound, an eventually-set stop flag, or (for the task loop) a
monotone clock that reaches `start + run_seconds`, the loop terminates,
and every terminating runner run ends for one of the three runner
reasons. -/
theorem stream_loop_termination (cfg : RunnerCfg) (m k : Nat)
    (clock : Nat → ℚ) (start runSeconds : ℚ) (n : Nat) :
    (cfg.maxTests = some m → (runnerLoop cfg (m + 1) 0).isSome) ∧
    ((∀ j, k ≤ j → cfg.stopTop j = true) → (runnerLoop cfg (k + 1) 0).isSome) ∧
    ((∀ j j', j ≤ j' → clock j ≤ clock j') → start + runSeconds ≤ clock n →
      (streamTaskLoop clock start runSeconds (n + 1) 0).isSome) ∧
    (∀ fuel evs r, runnerLoop cfg fuel 0 = some (evs, r) →
      r = EndReason.exhausted ∨ r = EndReason.stopped ∨ r = EndReason.maxReached) := by
  refine ⟨?_, ?_, ?_, ?_⟩
  · intro hm
    exact runnerLoop_maxTests_isSome cfg m hm m 0 (by omega)
  · intro hs
    exact runnerLoop_stop_isSome cfg k hs k 0 (by omega)
  · intro hmono hn
    exact streamTaskLoop_isSome clock start runSeconds n hmono hn n 0 (by omega)
  · intro fuel evs r _
    cases r
    · exact Or.inl rfl
    · exact Or.inr (Or.inl rfl)
    · exact Or.inr (Or.inr rfl)

/-- Witness for `stream_loop_termination`: a `max_tests = 2` run, an
immediately-stopped run, and a task loop under the identity clock with
duration 1. -/
theorem stream_loop_termination_witness :
    (runnerLoop wCfgMax (2 + 1) 0).isSome ∧
    (runnerLoop wCfgStop (0 + 1) 0).isSome ∧
    (streamTaskLoop (fun i => (i : ℚ)) 0 1 (1 + 1) 0).isSome ∧
    (EndReason.stopped = EndReason.exhausted ∨
      EndReason.stopped = EndReason.stopped ∨
      EndReason.stopped = EndReason.maxReached) :=
  ⟨(stream_loop_termination wCfgMax 2 0 (fun i => (i : ℚ)) 0 1 1).1 rfl,
   (stream_loop_termination wCfgStop 2 0 (fun i => (i : ℚ)) 0 1 1).2.1
     (fun _ _ => rfl),
   (stream_loop_termination wCfgMax 2 0 (fun i => (i : ℚ)) 0 1 1).2.2.1
     (fun j j' h => by exact_mod_cast h) (by norm_num),
   (stream_loop_termination wCfgStop 2 0 (fun i => (i : ℚ)) 0 1 1).2.2.2
     1 [] EndReason.stopped rfl⟩

/-! ## Claim theorem C7 (sequence numbers) -/

/-- Within one run, the events emitted from iteration `i` on carry the
consecutive sequence numbers `i, i+1, …`. -/
theorem runnerLoop_seq (cfg : RunnerCfg) :
    ∀ fuel i evs r, runnerLoop cfg fuel i = some (evs, r) →
      evs.map StreamEvent.seq = List.range' i evs.length := by
  intro fuel
  induction fuel with
  | zero =>
    intro i evs r h
    exact absurd h (by simp [runnerLoop])
  | succ fuel ih =>
    intro i evs r h
    unfold runnerLoop at h
    split at h
    · obtain ⟨he, _⟩ := Prod.mk.injEq .. ▸ Option.some.inj h
      subst he
      simp
    · split at h
      · obtain ⟨he, _⟩ := Prod.mk.injEq .. ▸ Option.some.inj h
        subst he
        simp
      · split at h
        · obtain ⟨he, _⟩ := Prod.mk.injEq .. ▸ Option.some.inj h
          subst he
          simp [List.range']
        · split at h
          · obtain ⟨he, _⟩ := Prod.mk.injEq .. ▸ Option.some.inj h
            subst he
            simp [List.range']
          · split at h
            · exact absurd h (by simp)
            next evs' r' heq =>
              obtain ⟨he, _⟩ := Prod.mk.injEq .. ▸ Option.some.inj h
              subst he
              have := ih (i + 1) evs' r' heq
              simp only [List.map_cons, this, List.length_cons]
              rw [List.range'_succ]

/-- C7: within any single stream the sequence numbers attached to the
emitted events are exactly `0, 1, 2, …` in emission order — no repeats, no
gaps — until the run terminates; each run (`runnerLoop` instance) has its
own counter starting at `0`, so concurrently started streams are
independent. -/
theorem stream_sequence_numbers (cfg : RunnerCfg) (fuel : Nat)
    (evs : List StreamEvent) (r : EndReason)
    (h : runnerLoop cfg fuel 0 = some (evs, r)) :
    evs.map StreamEvent.seq = List.range evs.length := by
  have := runnerLoop_seq cfg fuel 0 evs r h
  rw [this, List.range_eq_range']

/-- Witness for `stream_sequence_numbers`: the `max_tests = 2` run emits
two events with sequence numbers `[0, 1]`. -/
theorem stream_sequence_numbers_witness :
    ([{ seq := 0, result := simulateHardwareTest wSample wDraws },
      { seq := 1, result := simulateHardwareTest wSample wDraws }] :
        List StreamEvent).map StreamEvent.seq = List.range 2 :=
  stream_sequence_numbers wCfgMax 3
    [{ seq := 0, result := simulateHardwareTest wSample wDraws },
     { seq := 1, result := simulateHardwareTest wSample wDraws }]
    EndReason.maxReached rfl

/-! ## Stream supervisor registry (`Simulator.running_streams` and
`stop_stream`, simulator.py lines 239-255) -/

/-- `self.running_streams` as a map from stream id to the current value of
that stream's `stop_flag["stop"]`; `none` = the id is not registered. -/
def StreamRegistry : Type := String → Option Bool

/-- `Simulator.stop_stream` (simulator.py lines 249-255): returns `False`
when the id is unknown, else sets the stream's stop flag and returns
`True`. -/
def stopStream (reg : StreamRegistry) (streamId : String) : Bool × StreamRegistry :=
  match reg streamId with
  | none => (false, reg)
  | some _ => (true, fun x => if x = streamId then some true else reg x)

/-- The runner epilogue `del self.running_streams[stream_id]`
(simulator.py lines 239-241): a stream that terminated removes its own
handle. -/
def removeStream (reg : StreamRegistry) (streamId : String) : StreamRegistry :=
  fun x => if x = streamId then none else reg x

/-! ## Claim theorem C8 (stop_stream) -/

/-- C8: `stop_stream(streamId)` returns `False` exactly when the id is
unknown; a stream that already stopped removed its handle on termination,
so a stopped stream's id is unknown and also yields `False`; in the
remaining case it returns `True` and sets the stream's cooperative stop
flag. -/
theorem stop_stream_contract (reg : StreamRegistry) (streamId : String) :
    ((stopStream reg streamId).1 = false ↔ reg streamId = none) ∧
    (∀ b, reg streamId = some b →
      (stopStream reg streamId).1 = true ∧
      (stopStream reg streamId).2 streamId = some true) ∧
    ((stopStream (removeStream reg streamId) streamId).1 = false) := by
  refine ⟨?_, ?_, ?_⟩
  · unfold stopStream
    match h : reg streamId with
    | none => simp
    | some b => simp
  · intro b hb
    unfold stopStream
    rw [hb]
    exact ⟨rfl, by simp⟩
  · unfold stopStream removeStream
    simp

/-- Witness for `stop_stream_contract` on a registry holding the single
running stream `"s1"`. -/
theorem stop_stream_contract_witness :
    (stopStream (fun x => if x = "s1" then some false else none) "s1").1 = true ∧
    (stopStream (fun x => if x = "s1" then some false else none) "s1").2 "s1" = some true ∧
    (stopStream (removeStream (fun x => if x = "s1" then some false else none) "s1") "s1").1 = false :=
  ⟨((stop_stream_contract (fun x => if x = "s1" then some false else none) "s1").2.1
      false (by simp)).1,
   ((stop_stream_contract (fun x => if x = "s1" then some false else none) "s1").2.1
      false (by simp)).2,
   (stop_stream_contract (fun x => if x = "s1" then some false else none) "s1").2.2⟩

/-! ## Alert store (`save_alert_to_db` / `load_alerts`, main.py lines
67-102) -/

/-- One row of the `alerts` table created by `init_db` (main.py lines
50-65).  The `data` column holds the TEXT `json.dumps` of the source-event
dict (or NULL), which we carry by its value: `load_alerts` applies
`json.loads`, the inverse serialisation. -/
structure AlertRow where
  id : String
  timestamp : ℚ
  level : String
  manufacturer : String
  manufacturerPhone : Option String
  message : String
  data : Option EvalInput
deriving DecidableEq, Repr

/-- `save_alert_to_db` (main.py lines 67-83): `INSERT OR REPLACE` keyed on
the `id` primary key — any existing row with the same id is replaced. -/
def saveAlertToDb (store : List AlertRow) (a : AlertRec) : List AlertRow :=
  (store.filter fun r => r.id ≠ a.id) ++
    [{ id := a.id, timestamp := a.timestamp, level := a.level,
       manufacturer := a.manufacturer, manufacturerPhone := a.manufacturerPhone,
       message := a.message, data := some a.data }]

/-- `load_alerts(limit)` (main.py lines 85-102): `SELECT … ORDER BY
timestamp DESC LIMIT ?`, each row reconstructed with `json.loads` applied
to the `data` column. -/
def loadAlerts (store : List AlertRow) (limit : Nat) : List AlertRow :=
  (store.mergeSort fun r1 r2 => decide (r2.timestamp ≤ r1.timestamp)).take limit

/-! ## Claim theorem C9 (store round trip) -/

/-- C9: an Alert appended to the store and read back via
`load_alerts` comes back with all its fields equal — id, timestamp, level,
manufacturer, manufacturer_phone, message, and the source-event data —
the store only assigns its position in the most-recent-first ordering.
(The appended alert must be within the requested `limit` to be read
back.) -/
theorem alert_store_round_trip (store : List AlertRow) (a : AlertRec)
    (limit : Nat) (hlimit : (saveAlertToDb store a).length ≤ limit) :
    ∃ r ∈ loadAlerts (saveAlertToDb store a) limit,
      r.id = a.id ∧ r.timestamp = a.timestamp ∧ r.level = a.level ∧
      r.manufacturer = a.manufacturer ∧
      r.manufacturerPhone = a.manufacturerPhone ∧
      r.message = a.message ∧ r.data = some a.data := by
  refine ⟨{ id := a.id, timestamp := a.timestamp, level := a.level,
            manufacturer := a.manufacturer, manufacturerPhone := a.manufacturerPhone,
            message := a.message, data := some a.data },
    ?_, rfl, rfl, rfl, rfl, rfl, rfl, rfl⟩
  unfold loadAlerts
  rw [List.take_of_length_le]
  · rw [(List.mergeSort_perm (saveAlertToDb store a) _).mem_iff]
    unfold saveAlertToDb
    simp
  · rw [(List.mergeSort_perm (saveAlertToDb store a) _).length_eq]
    exact hlimit

/-- Witness for `alert_store_round_trip`: a single alert appended to the
empty store and read back with limit 1. -/
theorem alert_store_round_trip_witness :
    ∃ r ∈ loadAlerts (saveAlertToDb []
        { id := "a-1", timestamp := 5, level := "CRITICAL",
          manufacturer := "PharmaCorp", manufacturerPhone := some "123",
          message := "m",
          data := { days := some 3, fakeScore := some (17/20),
                    predictedFake := some 1, manufacturer := some "PharmaCorp",
                    manufacturerName := none, manufacturerPhone := some "123" } }) 1,
      r.id = "a-1" ∧ r.timestamp = 5 ∧ r.level = "CRITICAL" ∧
      r.manufacturer = "PharmaCorp" ∧
      r.manufacturerPhone = some "123" ∧
      r.message = "m" ∧
      r.data = some { days := some 3, fakeScore := some (17/20),
                      predictedFake := some 1, manufacturer := some "PharmaCorp",
                      manufacturerName := none, manufacturerPhone := some "123" } :=
  alert_store_round_trip []
    { id := "a-1", timestamp := 5, level := "CRITICAL",
      manufacturer := "PharmaCorp", manufacturerPhone := some "123",
      message := "m",
      data := { days := some 3, fakeScore := some (17/20),
                predictedFake := some 1, manufacturer := some "PharmaCorp",
                manufacturerName := none, manufacturerPhone := some "123" } }
    1 (by simp [saveAlertToDb])

/-! ## Legacy alert pipeline (`alerts.evaluate_and_alert` with
`db.save_alert`, alerts.py lines 8-35 and db.py lines 22-28) -/

/-- The simulator test dict consumed by `alerts.evaluate_and_alert`. -/
structure AlertsEvalInput where
  fakeScore : Option ℚ
  predictedFake : Option Int
  manufacturer : Option String
deriving DecidableEq, Repr

/-- The alert dict built by `alerts.evaluate_and_alert` (alerts.py lines
22-29); note it has no phone field.  `data` carries the serialized event
by value. -/
structure AlertsModAlert where
  id : String
  timestamp : ℚ
  level : String
  manufacturer : Option String
  message : String
  data : AlertsEvalInput
deriving DecidableEq, Repr

/-- A Python value bound as an SQL parameter. -/
inductive PyVal where
  | str (s : String)
  | num (q : ℚ)
  | null
  | json (d : AlertsEvalInput)
deriving DecidableEq, Repr

/-- Python's `str(...)` of an optional string (`None` prints as "None"). -/
def pyStr : Option String → String
  | none => "None"
  | some s => s

/-- `None` binds as SQL NULL, a string as TEXT. -/
def pyValOfOptStr : Option String → PyVal
  | none => PyVal.null
  | some s => PyVal.str s

/-- The literal SQL statement of `db.save_alert` (db.py line 25): six
columns are named but only five `?` placeholders appear. -/
def dbSaveAlertSql : String :=
  "INSERT INTO alerts (id,timestamp,level,manufacturer,message,data) VALUES (?,?,?,?,?)"

/-- Number of `?` placeholders in an SQL statement. -/
def countPlaceholders (s : String) : Nat := s.toList.count '?'

/-- The binding-arity check `sqlite3` performs on `cursor.execute(sql,
params)`: supplying a number of parameters different from the number of
placeholders raises `ProgrammingError` ("Incorrect number of bindings
supplied"). -/
def sqliteExecute (sql : String) (params : List PyVal) : Except String Unit :=
  if params.length = countPlaceholders sql then Except.ok ()
  else Except.error "Incorrect number of bindings supplied"

/-- `db.save_alert` (db.py lines 22-28): executes `dbSaveAlertSql` with
the six values of the alert dict. -/
def dbSaveAlert (a : AlertsModAlert) : Except String Unit :=
  sqliteExecute dbSaveAlertSql
    [PyVal.str a.id, PyVal.num a.timestamp, PyVal.str a.level,
     pyValOfOptStr a.manufacturer, PyVal.str a.message, PyVal.json a.data]

/-- `alerts.evaluate_and_alert` (alerts.py lines 8-35): level selection
with the module's own thresholds, then `save_alert(alert)` *outside any
try/except* — an exception from it propagates and neither the
`notify_callback` call nor the `return alert` is reached.  The returned
pair is (created alert, whether the callback was invoked). -/
def evaluateAndAlert (result : AlertsEvalInput) (newId : String) (now : ℚ)
    (hasCallback : Bool) : Except String (Option AlertsModAlert × Bool) :=
  let score := result.fakeScore.getD 0
  let manufacturer := result.manufacturer
  let levelMsg : Option (String × String) :=
    if result.predictedFake.getD 0 = 1 ∨ score ≥ alertsModAutoThreshold then
      some ("CRITICAL", "High likelihood of fake medicine detected from " ++
        pyStr manufacturer ++ " (score=" ++ formatScore score ++ ")")
    else if score ≥ alertsModWarnThreshold then
      some ("WARNING", "Suspicious medicine detected from " ++
        pyStr manufacturer ++ " (score=" ++ formatScore score ++ ")")
    else none
  match levelMsg with
  | none => Except.ok (none, false)
  | some lvlMsg =>
    let alert : AlertsModAlert :=
      { id := newId, timestamp := now, level := lvlMsg.1,
        manufacturer := manufacturer, message := lvlMsg.2, data := result }
    match dbSaveAlert alert with
    | Except.error e => Except.error e
    | Except.ok _ => Except.ok (some alert, hasCallback)

/-- Outcome of one `evaluate_and_handle_alert` call including its two
side effects. -/
structure PipelineOutcome where
  returned : Option AlertRec
  saved : Bool
  broadcast : Bool
deriving DecidableEq, Repr

/-- The effectful tail of `evaluate_and_handle_alert` (main.py lines
269-280): `save_alert_to_db` inside `try/except pass`, then
`manager.broadcast` inside its own `try/except pass`, then `return alert`.
`saveFails` / `broadcastFails` say whether each side effect raises. -/
def evaluateAndHandleAlertRun (inp : EvalInput) (newId : String) (now : ℚ)
    (phoneLookup : Option String) (saveFails broadcastFails : Bool) :
    PipelineOutcome :=
  match evaluateAndHandleAlert inp newId now phoneLookup with
  | none => { returned := none, saved := false, broadcast := false }
  | some a =>
    { returned := some a, saved := !saveFails, broadcast := !broadcastFails }

/-! ## Claim theorem C5 (persistence failures and the pipeline) -/

/-- C5 (code bug in the legacy path): `db.save_alert`'s INSERT names six
columns but has only five `?` placeholders, so the sqlite binding check
fails on every call; `alerts.evaluate_and_alert` calls it outside any
try/except, so on the concrete CRITICAL-triggering event the append
failure aborts the pipeline — no callback notification, no returned alert
— contradicting the claim.  In `main.py`'s `evaluate_and_handle_alert`
the claim's behaviour does hold: with the append failing, the alert is
still returned and the broadcast attempt is unaffected. -/
theorem alert_append_failure_paths :
    countPlaceholders dbSaveAlertSql = 5 ∧
    (∀ a : AlertsModAlert,
      dbSaveAlert a = Except.error "Incorrect number of bindings supplied") ∧
    evaluateAndAlert
        { fakeScore := some (9/10), predictedFake := some 1,
          manufacturer := some "PharmaCorp" } "id-5" 0 true =
      Except.error "Incorrect number of bindings supplied" ∧
    (∀ inp newId now phoneLookup bf,
      (evaluateAndHandleAlertRun inp newId now phoneLookup true bf).returned =
        evaluateAndHandleAlert inp newId now phoneLookup ∧
      (evaluateAndHandleAlertRun inp newId now phoneLookup true bf).broadcast =
        ((evaluateAndHandleAlert inp newId now phoneLookup).isSome && !bf)) := by
  have hcount : countPlaceholders dbSaveAlertSql = 5 := by decide
  have hsave : ∀ a : AlertsModAlert,
      dbSaveAlert a = Except.error "Incorrect number of bindings supplied" := by
    intro a
    unfold dbSaveAlert sqliteExecute
    rw [hcount, if_neg (by norm_num)]
  refine ⟨hcount, hsave, ?_, ?_⟩
  · unfold evaluateAndAlert
    dsimp only
    have hc : ((some (1 : ℤ)).getD 0 = 1 ∨
        (some ((9 : ℚ)/10)).getD 0 ≥ alertsModAutoThreshold) := Or.inl rfl
    rw [if_pos hc]
    simp only [hsave]
  · intro inp newId now phoneLookup bf
    unfold evaluateAndHandleAlertRun
    match h : evaluateAndHandleAlert inp newId now phoneLookup with
    | none => exact ⟨rfl, rfl⟩
    | some a => exact ⟨rfl, rfl⟩

end Medguard
